import Mathlib

/-!
Verification of the retry/backoff execution engine of the hiero-sdk-python
repository (`hiero_sdk_python/executable.py`) together with the request
builders of `consensus/topic_update_transaction.py` and
`tokens/token_unfreeze_transaction.py`.

The engine's `_execute` loop is embedded as a pure state-stepping function:
network effects are replaced by an environment `events : Nat → AttemptEvent`
that tells, for each attempt index, whether the dispatch raised a transport
error (`grpc.RpcError`) or returned a response.  The trace records the
durations passed to `_delay_for_attempt` (the sleeps), the number of network
dispatches, and the final client state, so timing/ordering claims become
statements about the trace.
-/

/-- Default retry/backoff configuration, in milliseconds (executable.py). -/
def DEFAULT_MAX_BACKOFF : Nat := 8000

/-- Default minimum (floor) backoff in milliseconds (executable.py). -/
def DEFAULT_MIN_BACKOFF : Nat := 250

/-- Default per-call gRPC deadline in milliseconds (executable.py). -/
def DEFAULT_GRPC_DEADLINE : Nat := 10000

/-- `_ExecutionState` of executable.py: classification of a response. -/
inductive ExecutionState : Type
  | RETRY
  | FINISHED
  | ERROR
  | EXPIRED
deriving DecidableEq

/-- Modelled from the spec: the client context (spec section 6) supplied by
`hiero_sdk_python/client/client.py`, which is not part of the analysed
sources.  It carries the attempt budget `max_attempts`, the ordered list of
candidate node identities `get_node_account_ids()`, and the current node
`node_account_id`.  Node identities are opaque and represented by `Nat`. -/
structure Client : Type where
  maxAttempts : Nat
  nodeAccountIds : List Nat
  nodeAccountId : Nat
deriving DecidableEq

/-- Modelled from the spec: `Client._switch_node` (spec section 6, the
"switch active node" mutator): it sets the current node identity. -/
def Client.switch_node (c : Client) (node : Nat) : Client :=
  { c with nodeAccountId := node }

/-- `_Method` of executable.py: a pair of optional callables, one for
queries and one for transactions. -/
structure _Method (τ ρ : Type) : Type where
  query : Option (τ → ρ)
  transaction : Option (τ → ρ)

/-- `_execute_method` of executable.py: call the transaction slot if it is
set, otherwise the query slot, otherwise fail. -/
def _execute_method {τ ρ : Type} (method : _Method τ ρ) (proto_request : τ) :
    Except String ρ :=
  match method.transaction with
  | some f => Except.ok (f proto_request)
  | none =>
    match method.query with
    | some g => Except.ok (g proto_request)
    | none => Except.error ("No method to execute")

/-- What the environment makes one dispatch do: raise a transport-level
`grpc.RpcError` (carrying the recorded error value) or return a response. -/
inductive AttemptEvent (ρ ε : Type) : Type
  | transportFailure (e : ε)
  | response (r : ρ)
deriving DecidableEq

/-- Outcome of one `_execute` call.  `maxAttemptsError` is modelled from the
spec (the `MaxAttemptsError` class lives in `hiero_sdk_python/exceptions.py`,
outside the analysed sources): the attempts-exhausted error carrying the
client's current node identity and the last observed error (spec section 7).
`buildError` is a validation error escaping `_make_request`, which the loop
does not catch. -/
inductive ExecResult (σ ε : Type) : Type
  | success (v : σ)
  | maxAttemptsError (node : Nat) (lastErr : Option ε)
  | statusError (e : ε)
  | buildError (e : ε)
deriving DecidableEq

/-- Observable trace of one `_execute` call: the final outcome, the list of
durations slept (arguments of `_delay_for_attempt`), the number of network
dispatches (`_execute_method` calls), and the final client state. -/
structure ExecTrace (σ ε : Type) : Type where
  result : ExecResult σ ε
  sleeps : List Nat
  dispatches : Nat
  client : Client
deriving DecidableEq

/-- The per-operation capability set of `_Executable` (executable.py):
backoff configuration plus the abstract methods that subclasses implement.
`make_request` is `_make_request`, which may fail with a validation error;
`should_retry` is `_should_retry`; `map_status_error` is `_map_status_error`;
`map_response` is `_map_response` (given response, node id and request). -/
structure _Executable (τ ρ σ ε : Type) : Type where
  min_backoff : Nat
  max_backoff : Nat
  grpc_deadline : Nat
  make_request : Except ε τ
  should_retry : ρ → ExecutionState
  map_status_error : ρ → ε
  map_response : ρ → Nat → τ → σ

/-- The top-of-loop backoff update of `_execute` (executable.py lines
166-167): `if attempt > 0 and current_backoff < self._max_backoff:
current_backoff *= 2`. -/
def step_backoff (max_backoff attempt current_backoff : Nat) : Nat :=
  if 0 < attempt ∧ current_backoff < max_backoff then current_backoff * 2
  else current_backoff

/-- `_delay_for_attempt` of executable.py sleeps `current_backoff`
milliseconds; here it returns the duration slept, which the trace records. -/
def _delay_for_attempt (current_backoff : Nat) : Nat :=
  current_backoff

/-- The retry loop of `_Executable._execute` (executable.py lines 164-213),
one recursive step per `for attempt in range(max_attempts)` iteration.
Arguments after `events`: remaining iterations, `attempt`,
`current_backoff`, `err_persistant`, the client, the sleeps recorded so far,
and the dispatches performed so far. -/
def runFrom {τ ρ σ ε : Type} (E : _Executable τ ρ σ ε)
    (events : Nat → AttemptEvent ρ ε) :
    Nat → Nat → Nat → Option ε → Client → List Nat → Nat → ExecTrace σ ε
  | 0, _, _, err_persistant, client, sleeps, dispatches =>
      { result := ExecResult.maxAttemptsError client.nodeAccountId err_persistant,
        sleeps := sleeps, dispatches := dispatches, client := client }
  | remaining + 1, attempt, current_backoff, _err_persistant, client, sleeps, dispatches =>
      match E.make_request with
      | Except.error e =>
          { result := ExecResult.buildError e, sleeps := sleeps,
            dispatches := dispatches, client := client }
      | Except.ok proto_request =>
          match events attempt with
          | AttemptEvent.transportFailure e =>
              runFrom E events remaining (attempt + 1)
                (step_backoff E.max_backoff attempt current_backoff) (some e)
                (client.switch_node (client.nodeAccountIds.getD
                  ((attempt + 1) % client.nodeAccountIds.length) 0))
                sleeps (dispatches + 1)
          | AttemptEvent.response r =>
              match E.should_retry r with
              | ExecutionState.RETRY =>
                  runFrom E events remaining (attempt + 1)
                    (step_backoff E.max_backoff attempt current_backoff)
                    (some (E.map_status_error r)) client
                    (sleeps ++ [_delay_for_attempt
                      (step_backoff E.max_backoff attempt current_backoff)])
                    (dispatches + 1)
              | ExecutionState.EXPIRED =>
                  { result := ExecResult.statusError (E.map_status_error r),
                    sleeps := sleeps, dispatches := dispatches + 1, client := client }
              | ExecutionState.ERROR =>
                  { result := ExecResult.statusError (E.map_status_error r),
                    sleeps := sleeps, dispatches := dispatches + 1, client := client }
              | ExecutionState.FINISHED =>
                  { result := ExecResult.success
                      (E.map_response r client.nodeAccountId proto_request),
                    sleeps := sleeps, dispatches := dispatches + 1, client := client }

/-- `_Executable._execute` (executable.py lines 142-215): run the retry loop
for `client.max_attempts` iterations starting with `current_backoff =
self._min_backoff` and `err_persistant = None`. -/
def _execute {τ ρ σ ε : Type} (E : _Executable τ ρ σ ε)
    (events : Nat → AttemptEvent ρ ε) (client : Client) : ExecTrace σ ε :=
  runFrom E events client.maxAttempts 0 E.min_backoff none client [] 0

/-- The backoff value slept after attempt `k` when every attempt is
classified RETRY: the floor for `k = 0`, then doubled while the previous
value is still below the ceiling (the code's actual recurrence, with no
capping of the doubled value). -/
def backoffSeq (floor ceiling : Nat) : Nat → Nat
  | 0 => floor
  | k + 1 =>
      if backoffSeq floor ceiling k < ceiling then backoffSeq floor ceiling k * 2
      else backoffSeq floor ceiling k

/-- The delay recurrence exactly as the specification states it:
`delay(0) = floor` and `delay(k) = min(delay(k-1) * 2, ceiling)`.  Stated
for comparison with `backoffSeq`, which is what the code computes. -/
def specBackoffSeq (floor ceiling : Nat) : Nat → Nat
  | 0 => floor
  | k + 1 => min (specBackoffSeq floor ceiling k * 2) ceiling

/-- The sleeps an all-RETRY run of the loop records, starting at a given
attempt index with a given carried backoff value. -/
def retrySleeps (ceiling : Nat) : Nat → Nat → Nat → List Nat
  | 0, _, _ => []
  | remaining + 1, attempt, current_backoff =>
      step_backoff ceiling attempt current_backoff ::
        retrySleeps ceiling remaining (attempt + 1)
          (step_backoff ceiling attempt current_backoff)

/-- Attempt `k` does not end the run: the dispatch raised a transport error,
or the response was classified RETRY. -/
def continues {τ ρ σ ε : Type} (E : _Executable τ ρ σ ε)
    (events : Nat → AttemptEvent ρ ε) (k : Nat) : Prop :=
  (∃ e, events k = AttemptEvent.transportFailure e) ∨
    (∃ r, events k = AttemptEvent.response r ∧
      E.should_retry r = ExecutionState.RETRY)

/-- `Duration` value object (Duration.py, held by reference from the topic
update transaction; only its seconds payload matters here). -/
structure Duration : Type where
  seconds : Int
deriving DecidableEq

/-- Body of a topic update, mirroring the
`ConsensusUpdateTopicTransactionBody` assembled by
`TopicUpdateTransaction.build_transaction_body` (keys, ids and timestamps
are opaque and represented by `Nat`). -/
structure ConsensusUpdateTopicBody : Type where
  topicID : Nat
  adminKey : Option Nat
  submitKey : Option Nat
  autoRenewPeriod : Option Int
  autoRenewAccount : Option Nat
  expirationTime : Option Nat
  memo : Option String
deriving DecidableEq

/-- Body of a token unfreeze, mirroring
`TokenUnfreezeAccountTransactionBody` (account and token ids opaque). -/
structure TokenUnfreezeBody : Type where
  account : Nat
  token : Nat
deriving DecidableEq

/-- The protobuf `TransactionBody` as far as these two operations populate
it: the common fields produced by `build_base_transaction_body` (reduced to
the fee) plus the operation-specific oneof slots. -/
structure TransactionBody : Type where
  transaction_fee : Nat
  consensusUpdateTopic : Option ConsensusUpdateTopicBody := none
  tokenUnfreeze : Option TokenUnfreezeBody := none
deriving DecidableEq

/-- `TopicUpdateTransaction` (consensus/topic_update_transaction.py):
the fields its constructor stores.  Ids and keys are opaque (`Nat`). -/
structure TopicUpdateTransaction : Type where
  topic_id : Option Nat
  memo : String
  admin_key : Option Nat
  submit_key : Option Nat
  auto_renew_period : Option Duration
  auto_renew_account : Option Nat
  expiration_time : Option Nat
  transaction_fee : Nat
deriving DecidableEq

/-- Modelled from the spec: `Transaction.build_base_transaction_body` (the
base `Transaction` class is not among the analysed sources).  Per spec
section 6 the request builder assembles the common wire payload from the
operation's stored fields; here it contributes the fee and leaves the
operation-specific slots empty. -/
def TopicUpdateTransaction.build_base_transaction_body
    (t : TopicUpdateTransaction) : TransactionBody :=
  { transaction_fee := t.transaction_fee }

/-- `TopicUpdateTransaction.build_transaction_body`: raises `ValueError` when
`topic_id` is `None`, otherwise fills `consensusUpdateTopic` with the stored
fields (optional fields map to `None` when falsy, including the empty
memo). -/
def TopicUpdateTransaction.build_transaction_body
    (t : TopicUpdateTransaction) : Except String TransactionBody :=
  match t.topic_id with
  | none => Except.error ("Missing required fields: topic_id")
  | some tid =>
      Except.ok { t.build_base_transaction_body with
        consensusUpdateTopic := some
          { topicID := tid
            adminKey := t.admin_key
            submitKey := t.submit_key
            autoRenewPeriod := t.auto_renew_period.map Duration.seconds
            autoRenewAccount := t.auto_renew_account
            expirationTime := t.expiration_time
            memo := if t.memo = "" then none else some t.memo } }

/-- The topic service stub exposed by the channel wrapper, as used by
`TopicUpdateTransaction._get_method`. -/
structure TopicServiceStub (τ ρ : Type) : Type where
  updateTopic : τ → ρ

/-- `_Channel` as consumed by `TopicUpdateTransaction._get_method`: exposes
the topic service stub. -/
structure _Channel (τ ρ : Type) : Type where
  topic : TopicServiceStub τ ρ

/-- `TopicUpdateTransaction._get_method`: a `_Method` whose transaction slot
is `channel.topic.updateTopic` and whose query slot is `None`. -/
def TopicUpdateTransaction._get_method {τ ρ : Type}
    (_t : TopicUpdateTransaction) (channel : _Channel τ ρ) : _Method τ ρ :=
  { query := none, transaction := some channel.topic.updateTopic }

/-- `TokenUnfreezeTransaction` (tokens/token_unfreeze_transaction.py):
the fields its constructor stores. -/
structure TokenUnfreezeTransaction : Type where
  account_id : Option Nat
  token_id : Option Nat
  _default_transaction_fee : Nat
  _is_frozen : Bool
deriving DecidableEq

/-- Modelled from the spec: `Transaction.build_base_transaction_body` for the
token unfreeze transaction (base class outside the analysed sources), as for
the topic update. -/
def TokenUnfreezeTransaction.build_base_transaction_body
    (u : TokenUnfreezeTransaction) : TransactionBody :=
  { transaction_fee := u._default_transaction_fee }

/-- `TokenUnfreezeTransaction.build_transaction_body`: raises `ValueError`
when `token_id` is unset, then when `account_id` is unset (`not self.x` on
an optional object is the `None` check), otherwise fills `tokenUnfreeze`. -/
def TokenUnfreezeTransaction.build_transaction_body
    (u : TokenUnfreezeTransaction) : Except String TransactionBody :=
  match u.token_id with
  | none => Except.error ("Missing required TokenID.")
  | some tok =>
      match u.account_id with
      | none => Except.error ("Missing required AccountID.")
      | some acc =>
          Except.ok { u.build_base_transaction_body with
            tokenUnfreeze := some { account := acc, token := tok } }

/-- Modelled from the spec: `Transaction._make_request` (base class outside
the analysed sources) produces the wire payload by building the transaction
body, propagating its validation error (spec section 6, request builder). -/
def TopicUpdateTransaction._make_request (t : TopicUpdateTransaction) :
    Except String TransactionBody :=
  t.build_transaction_body

/-- Modelled from the spec: `Transaction._make_request` for the token
unfreeze transaction, as for the topic update. -/
def TokenUnfreezeTransaction._make_request (u : TokenUnfreezeTransaction) :
    Except String TransactionBody :=
  u.build_transaction_body

section ConcreteInstances

/-- Concrete executable for evaluating the engine on closed inputs: the
response type is its own classification, errors are numeric codes. -/
def demoExec : _Executable Nat ExecutionState Nat Nat :=
  { min_backoff := DEFAULT_MIN_BACKOFF
    max_backoff := DEFAULT_MAX_BACKOFF
    grpc_deadline := DEFAULT_GRPC_DEADLINE
    make_request := Except.ok 5
    should_retry := fun r => r
    map_status_error := fun r =>
      match r with
      | ExecutionState.RETRY => 1
      | ExecutionState.FINISHED => 0
      | ExecutionState.ERROR => 2
      | ExecutionState.EXPIRED => 3
    map_response := fun _ node req => node + req }

/-- Environment in which every dispatch returns a RETRY-classified
response. -/
def allRetryEvents : Nat → AttemptEvent ExecutionState Nat :=
  fun _ => AttemptEvent.response ExecutionState.RETRY

/-- A three-node client with attempt budget 3, current node the first. -/
def demoClient : Client :=
  { maxAttempts := 3, nodeAccountIds := [3, 4, 5], nodeAccountId := 3 }

/-- Like `demoExec` but with a floor (3000 ms) that is not a power-of-two
divisor of the ceiling (8000 ms), exposing the uncapped doubling. -/
def uncappedExec : _Executable Nat ExecutionState Nat Nat :=
  { demoExec with min_backoff := 3000 }

/-- A three-node client whose current node is the middle candidate. -/
def midClient : Client :=
  { maxAttempts := 2, nodeAccountIds := [10, 20, 30], nodeAccountId := 20 }

/-- A client with attempt budget zero. -/
def zeroClient : Client :=
  { maxAttempts := 0, nodeAccountIds := [3, 4, 5], nodeAccountId := 3 }

/-- One transport failure, then a FINISHED response. -/
def oneTransportEvents : Nat → AttemptEvent ExecutionState Nat
  | 0 => AttemptEvent.transportFailure 99
  | _ + 1 => AttemptEvent.response ExecutionState.FINISHED

/-- Two transport failures, then FINISHED responses. -/
def twoTransportEvents : Nat → AttemptEvent ExecutionState Nat
  | 0 => AttemptEvent.transportFailure 41
  | 1 => AttemptEvent.transportFailure 42
  | _ + 2 => AttemptEvent.response ExecutionState.FINISHED

/-- A RETRY-classified response, then ERROR-classified responses. -/
def retryThenErrorEvents : Nat → AttemptEvent ExecutionState Nat
  | 0 => AttemptEvent.response ExecutionState.RETRY
  | _ + 1 => AttemptEvent.response ExecutionState.ERROR

/-- All-RETRY environment with string-typed errors. -/
def allRetryEventsS : Nat → AttemptEvent ExecutionState String :=
  fun _ => AttemptEvent.response ExecutionState.RETRY

/-- A topic update transaction exactly as `TopicUpdateTransaction()`
constructs it with no arguments: `topic_id` is `None`, the memo is empty,
the auto-renew period is `Duration(7890000)`, and the fee is 10,000,000. -/
def emptyTopicUpdate : TopicUpdateTransaction :=
  { topic_id := none, memo := "", admin_key := none, submit_key := none,
    auto_renew_period := some { seconds := 7890000 },
    auto_renew_account := none, expiration_time := none,
    transaction_fee := 10000000 }

/-- The engine instantiated with `emptyTopicUpdate` as the request builder:
its `_make_request` raises the missing-topic-id validation error. -/
def emptyTopicUpdateExec : _Executable TransactionBody ExecutionState Nat String :=
  { min_backoff := DEFAULT_MIN_BACKOFF
    max_backoff := DEFAULT_MAX_BACKOFF
    grpc_deadline := DEFAULT_GRPC_DEADLINE
    make_request := emptyTopicUpdate._make_request
    should_retry := fun r => r
    map_status_error := fun _ => "status error"
    map_response := fun _ node _ => node }

end ConcreteInstances

/-! ### Helper lemmas about the backoff sequence -/

lemma backoffSeq_flat (floor ceiling k : Nat)
    (h : ceiling ≤ backoffSeq floor ceiling k) :
    ∀ j, backoffSeq floor ceiling (k + j) = backoffSeq floor ceiling k := by
  intro j
  induction j with
  | zero => rfl
  | succ n ih =>
      have : ¬ backoffSeq floor ceiling (k + n) < ceiling := by
        rw [ih]; omega
      show backoffSeq floor ceiling (k + n + 1) = _
      rw [backoffSeq, if_neg this, ih]

lemma retrySleeps_length (ceiling : Nat) :
    ∀ remaining attempt backoff,
      (retrySleeps ceiling remaining attempt backoff).length = remaining := by
  intro remaining
  induction remaining with
  | zero => intro attempt backoff; rfl
  | succ n ih =>
      intro attempt backoff
      rw [retrySleeps]
      simp [ih]

lemma retrySleeps_eq_backoffSeq_aux (floor ceiling : Nat) :
    ∀ remaining attempt,
      retrySleeps ceiling remaining (attempt + 1)
          (backoffSeq floor ceiling attempt) =
        (List.range remaining).map
          (fun j => backoffSeq floor ceiling (attempt + 1 + j)) := by
  intro remaining
  induction remaining with
  | zero => intro attempt; rfl
  | succ n ih =>
      intro attempt
      have hstep : step_backoff ceiling (attempt + 1)
          (backoffSeq floor ceiling attempt) =
          backoffSeq floor ceiling (attempt + 1) := by
        rw [step_backoff, backoffSeq]
        by_cases h : backoffSeq floor ceiling attempt < ceiling
        · rw [if_pos ⟨Nat.succ_pos attempt, h⟩, if_pos h]
        · rw [if_neg (by tauto), if_neg h]
      rw [retrySleeps, hstep, ih (attempt + 1), List.range_succ_eq_map]
      simp only [List.map_cons, List.map_map]
      apply congrArg₂ List.cons rfl
      apply List.map_congr_left
      intro a _
      simp only [Function.comp_apply]
      congr 1
      omega

lemma runFrom_all_retry {τ ρ σ ε : Type} (E : _Executable τ ρ σ ε)
    (events : Nat → AttemptEvent ρ ε) (req : τ)
    (hreq : E.make_request = Except.ok req) (r : Nat → ρ) :
    ∀ remaining attempt backoff errP client sleeps dispatches,
      (∀ k, k < remaining →
        events (attempt + k) = AttemptEvent.response (r (attempt + k))) →
      (∀ k, k < remaining →
        E.should_retry (r (attempt + k)) = ExecutionState.RETRY) →
      runFrom E events remaining attempt backoff errP client sleeps dispatches =
        { result := ExecResult.maxAttemptsError client.nodeAccountId
            (if remaining = 0 then errP
             else some (E.map_status_error (r (attempt + remaining - 1))))
          sleeps := sleeps ++ retrySleeps E.max_backoff remaining attempt backoff
          dispatches := dispatches + remaining
          client := client } := by
  intro remaining
  induction remaining with
  | zero =>
      intro attempt backoff errP client sleeps dispatches _ _
      simp [runFrom, retrySleeps]
  | succ n ih =>
      intro attempt backoff errP client sleeps dispatches hev hr
      have h0 : events attempt = AttemptEvent.response (r attempt) := by
        have := hev 0 (Nat.succ_pos n); simpa using this
      have h0r : E.should_retry (r attempt) = ExecutionState.RETRY := by
        have := hr 0 (Nat.succ_pos n); simpa using this
      simp only [runFrom, hreq, h0, h0r]
      have hev1 : ∀ k, k < n →
          events (attempt + 1 + k) = AttemptEvent.response (r (attempt + 1 + k)) := by
        intro k hk
        have := hev (k + 1) (by omega)
        rwa [show attempt + (k + 1) = attempt + 1 + k by omega] at this
      have hr1 : ∀ k, k < n →
          E.should_retry (r (attempt + 1 + k)) = ExecutionState.RETRY := by
        intro k hk
        have := hr (k + 1) (by omega)
        rwa [show attempt + (k + 1) = attempt + 1 + k by omega] at this
      rw [ih (attempt + 1) (step_backoff E.max_backoff attempt backoff)
        (some (E.map_status_error (r attempt))) client
        (sleeps ++ [_delay_for_attempt (step_backoff E.max_backoff attempt backoff)])
        (dispatches + 1) hev1 hr1]
      rw [retrySleeps]
      have hne : (n + 1 = 0) = False := by simp
      simp only [ExecTrace.mk.injEq, _delay_for_attempt, List.append_assoc,
        List.singleton_append, hne, if_false]
      refine ⟨?_, trivial, by omega, trivial⟩
      have hidx : attempt + 1 + n - 1 = attempt + (n + 1) - 1 := by omega
      rcases Nat.eq_zero_or_pos n with hn | hn
      · subst hn; simp
      · rw [if_neg (by omega), hidx]

lemma retrySleeps_eq_backoffSeq (floor ceiling : Nat) :
    ∀ remaining, retrySleeps ceiling remaining 0 floor =
      (List.range remaining).map (backoffSeq floor ceiling) := by
  intro remaining
  cases remaining with
  | zero => rfl
  | succ n =>
      have h0 : step_backoff ceiling 0 floor = floor := by
        rw [step_backoff, if_neg]; simp
      have haux := retrySleeps_eq_backoffSeq_aux floor ceiling n 0
      simp only [show backoffSeq floor ceiling 0 = floor from rfl] at haux
      rw [retrySleeps, h0, haux, List.range_succ_eq_map]
      simp only [List.map_cons, List.map_map]
      apply congrArg₂ List.cons rfl
      apply List.map_congr_left
      intro a _
      simp only [Function.comp_apply]
      congr 1
      omega

lemma runFrom_dispatches_le {τ ρ σ ε : Type} (E : _Executable τ ρ σ ε)
    (events : Nat → AttemptEvent ρ ε) :
    ∀ remaining attempt backoff errP client sleeps dispatches,
      (runFrom E events remaining attempt backoff errP client
          sleeps dispatches).dispatches ≤ dispatches + remaining := by
  intro remaining
  induction remaining with
  | zero => intro attempt backoff errP client sleeps dispatches; simp [runFrom]
  | succ n ih =>
      intro attempt backoff errP client sleeps dispatches
      cases hmr : E.make_request with
      | error e => simp [runFrom, hmr]
      | ok req =>
          cases hev : events attempt with
          | transportFailure e =>
              simp only [runFrom, hmr, hev]
              exact le_trans (ih _ _ _ _ _ _) (by omega)
          | response resp =>
              cases hsr : E.should_retry resp with
              | RETRY =>
                  simp only [runFrom, hmr, hev, hsr]
                  exact le_trans (ih _ _ _ _ _ _) (by omega)
              | FINISHED => simp only [runFrom, hmr, hev, hsr]; omega
              | ERROR => simp only [runFrom, hmr, hev, hsr]; omega
              | EXPIRED => simp only [runFrom, hmr, hev, hsr]; omega

lemma runFrom_terminal_of_continues {τ ρ σ ε : Type} (E : _Executable τ ρ σ ε)
    (events : Nat → AttemptEvent ρ ε) (req : τ)
    (hreq : E.make_request = Except.ok req) (resp : ρ)
    (hterm : E.should_retry resp = ExecutionState.ERROR ∨
      E.should_retry resp = ExecutionState.EXPIRED) :
    ∀ k remaining attempt backoff errP client sleeps dispatches,
      k < remaining →
      (∀ j, j < k → continues E events (attempt + j)) →
      events (attempt + k) = AttemptEvent.response resp →
      (runFrom E events remaining attempt backoff errP client
          sleeps dispatches).result =
          ExecResult.statusError (E.map_status_error resp) ∧
        (runFrom E events remaining attempt backoff errP client
          sleeps dispatches).dispatches = dispatches + k + 1 := by
  intro k
  induction k with
  | zero =>
      intro remaining attempt backoff errP client sleeps dispatches hk _ hev
      obtain ⟨n, rfl⟩ : ∃ n, remaining = n + 1 :=
        ⟨remaining - 1, by omega⟩
      rw [show attempt + 0 = attempt by omega] at hev
      rcases hterm with h | h
      · simp [runFrom, hreq, hev, h]
      · simp [runFrom, hreq, hev, h]
  | succ m ih =>
      intro remaining attempt backoff errP client sleeps dispatches hk hpre hev
      obtain ⟨n, rfl⟩ : ∃ n, remaining = n + 1 :=
        ⟨remaining - 1, by omega⟩
      have hpre1 : ∀ j, j < m → continues E events (attempt + 1 + j) := by
        intro j hj
        have := hpre (j + 1) (by omega)
        rwa [show attempt + (j + 1) = attempt + 1 + j by omega] at this
      have hev1 : events (attempt + 1 + m) = AttemptEvent.response resp := by
        rwa [show attempt + (m + 1) = attempt + 1 + m by omega] at hev
      rcases hpre 0 (Nat.succ_pos m) with ⟨e, h0⟩ | ⟨r0, h0, h0r⟩
      · rw [show attempt + 0 = attempt by omega] at h0
        simp only [runFrom, hreq, h0]
        have := ih n (attempt + 1)
          (step_backoff E.max_backoff attempt backoff) (some e)
          (Client.switch_node client (client.nodeAccountIds.getD
            ((attempt + 1) % client.nodeAccountIds.length) 0))
          sleeps (dispatches + 1) (by omega) hpre1 hev1
        refine ⟨this.1, ?_⟩
        rw [this.2]; omega
      · rw [show attempt + 0 = attempt by omega] at h0
        simp only [runFrom, hreq, h0, h0r]
        have := ih n (attempt + 1)
          (step_backoff E.max_backoff attempt backoff)
          (some (E.map_status_error r0)) client
          (sleeps ++ [_delay_for_attempt
            (step_backoff E.max_backoff attempt backoff)])
          (dispatches + 1) (by omega) hpre1 hev1
        refine ⟨this.1, ?_⟩
        rw [this.2]; omega

lemma runFrom_transport_run {τ ρ σ ε : Type} (E : _Executable τ ρ σ ε)
    (events : Nat → AttemptEvent ρ ε) (req : τ)
    (hreq : E.make_request = Except.ok req) :
    ∀ M remaining attempt backoff errP client sleeps dispatches,
      M ≤ remaining →
      (∀ j, j < M → ∃ e, events (attempt + j) = AttemptEvent.transportFailure e) →
      ∃ b2 e2 c2,
        runFrom E events remaining attempt backoff errP client
            sleeps dispatches =
          runFrom E events (remaining - M) (attempt + M) b2 e2 c2
            sleeps (dispatches + M) ∧
        c2.nodeAccountIds = client.nodeAccountIds ∧
        c2.maxAttempts = client.maxAttempts ∧
        (M = 0 → c2 = client) ∧
        (1 ≤ M → c2.nodeAccountId = client.nodeAccountIds.getD
          ((attempt + M) % client.nodeAccountIds.length) 0) := by
  intro M
  induction M with
  | zero =>
      intro remaining attempt backoff errP client sleeps dispatches _ _
      exact ⟨backoff, errP, client, by simp, rfl, rfl, fun _ => rfl,
        fun h => absurd h (by omega)⟩
  | succ m ih =>
      intro remaining attempt backoff errP client sleeps dispatches hM hall
      obtain ⟨n, rfl⟩ : ∃ n, remaining = n + 1 :=
        ⟨remaining - 1, by omega⟩
      obtain ⟨e0, h0⟩ := hall 0 (Nat.succ_pos m)
      rw [show attempt + 0 = attempt by omega] at h0
      have hall1 : ∀ j, j < m →
          ∃ e, events (attempt + 1 + j) = AttemptEvent.transportFailure e := by
        intro j hj
        obtain ⟨e, he⟩ := hall (j + 1) (by omega)
        exact ⟨e, by rwa [show attempt + (j + 1) = attempt + 1 + j by omega] at he⟩
      set c1 : Client := Client.switch_node client (client.nodeAccountIds.getD
        ((attempt + 1) % client.nodeAccountIds.length) 0) with hc1
      obtain ⟨b2, e2, c2, heq, hids, hmax, hzero, hpos⟩ :=
        ih n (attempt + 1) (step_backoff E.max_backoff attempt backoff)
          (some e0) c1 sleeps (dispatches + 1) (by omega) hall1
      refine ⟨b2, e2, c2, ?_, ?_, ?_, ?_, ?_⟩
      · simp only [runFrom, hreq, h0]
        rw [heq]
        have h1 : attempt + 1 + m = attempt + (m + 1) := by omega
        have h2 : dispatches + 1 + m = dispatches + (m + 1) := by omega
        have h3 : n - m = n + 1 - (m + 1) := by omega
        rw [h1, h2, h3]
      · rw [hids]; rfl
      · rw [hmax]; rfl
      · intro h; exact absurd h (by omega)
      · intro _
        rcases Nat.eq_zero_or_pos m with hm | hm
        · subst hm
          rw [hzero rfl]
          rfl
        · rw [hpos hm]
          have h4 : attempt + 1 + m = attempt + (m + 1) := by omega
          rw [h4]
          rfl

lemma backoffSeq_default_le :
    ∀ k, backoffSeq DEFAULT_MIN_BACKOFF DEFAULT_MAX_BACKOFF k ≤
      DEFAULT_MAX_BACKOFF := by
  intro k
  rcases Nat.lt_or_ge k 5 with h | h
  · interval_cases k <;> decide
  · obtain ⟨j, rfl⟩ : ∃ j, k = 5 + j := ⟨k - 5, by omega⟩
    rw [backoffSeq_flat DEFAULT_MIN_BACKOFF DEFAULT_MAX_BACKOFF 5 (by decide) j]
    decide

lemma execute_all_retry {τ ρ σ ε : Type} (E : _Executable τ ρ σ ε)
    (events : Nat → AttemptEvent ρ ε) (req : τ) (r : Nat → ρ)
    (client : Client) (hreq : E.make_request = Except.ok req)
    (hev : ∀ k, k < client.maxAttempts →
      events k = AttemptEvent.response (r k))
    (hr : ∀ k, k < client.maxAttempts →
      E.should_retry (r k) = ExecutionState.RETRY) :
    _execute E events client =
      { result := ExecResult.maxAttemptsError client.nodeAccountId
          (if client.maxAttempts = 0 then none
           else some (E.map_status_error (r (client.maxAttempts - 1))))
        sleeps := (List.range client.maxAttempts).map
          (backoffSeq E.min_backoff E.max_backoff)
        dispatches := client.maxAttempts
        client := client } := by
  have hev0 : ∀ k, k < client.maxAttempts →
      events (0 + k) = AttemptEvent.response (r (0 + k)) := by
    intro k hk; rw [Nat.zero_add]; exact hev k hk
  have hr0 : ∀ k, k < client.maxAttempts →
      E.should_retry (r (0 + k)) = ExecutionState.RETRY := by
    intro k hk; rw [Nat.zero_add]; exact hr k hk
  have h := runFrom_all_retry E events req hreq r client.maxAttempts 0
    E.min_backoff none client [] 0 hev0 hr0
  rw [_execute, h]
  simp only [List.nil_append, Nat.zero_add,
    retrySleeps_eq_backoffSeq E.min_backoff E.max_backoff client.maxAttempts]

/-- C1: counterexample to the claim as stated.  With floor 3000 ms and
ceiling 8000 ms (a legal configuration, since the floor is below the
ceiling) an all-RETRY run sleeps 3000, 6000, then 12000 ms: the third delay
is `6000 * 2`, not `min(6000 * 2, 8000)`, and it exceeds the ceiling.  The
code doubles whenever the current value is below the ceiling and never caps
the doubled value. -/
theorem backoff_exceeds_ceiling_cex :
    (_execute uncappedExec allRetryEvents demoClient).sleeps =
      [3000, 6000, 12000] ∧
    uncappedExec.max_backoff = 8000 ∧ ¬ (12000 ≤ 8000) := by
  decide

/-- C1 (amended): in an all-RETRY execution the slept delays are
`backoffSeq` applied to 0, 1, 2, ...: `delay(0) = floor`, and
`delay(k) = delay(k-1) * 2` when `delay(k-1) < ceiling`, else
`delay(k-1)` (no capping of the doubled value, so one doubling can
overshoot the ceiling); once the delay reaches or exceeds the ceiling it
stays flat, and with the default floor (250 ms) and ceiling (8000 ms) the
delay indeed never exceeds the ceiling. -/
theorem backoff_doubling_uncapped {τ ρ σ ε : Type} (E : _Executable τ ρ σ ε)
    (events : Nat → AttemptEvent ρ ε) (req : τ) (r : Nat → ρ)
    (client : Client) (hreq : E.make_request = Except.ok req)
    (hev : ∀ k, k < client.maxAttempts →
      events k = AttemptEvent.response (r k))
    (hr : ∀ k, k < client.maxAttempts →
      E.should_retry (r k) = ExecutionState.RETRY) :
    (_execute E events client).sleeps =
      (List.range client.maxAttempts).map
        (backoffSeq E.min_backoff E.max_backoff) ∧
    backoffSeq E.min_backoff E.max_backoff 0 = E.min_backoff ∧
    (∀ k, backoffSeq E.min_backoff E.max_backoff (k + 1) =
      if backoffSeq E.min_backoff E.max_backoff k < E.max_backoff
      then backoffSeq E.min_backoff E.max_backoff k * 2
      else backoffSeq E.min_backoff E.max_backoff k) ∧
    (∀ k j, E.max_backoff ≤ backoffSeq E.min_backoff E.max_backoff k →
      backoffSeq E.min_backoff E.max_backoff (k + j) =
        backoffSeq E.min_backoff E.max_backoff k) ∧
    (∀ k, backoffSeq DEFAULT_MIN_BACKOFF DEFAULT_MAX_BACKOFF k ≤
      DEFAULT_MAX_BACKOFF) := by
  refine ⟨?_, rfl, fun k => rfl, ?_, backoffSeq_default_le⟩
  · rw [execute_all_retry E events req r client hreq hev hr]
  · intro k j h
    exact backoffSeq_flat E.min_backoff E.max_backoff k h j

/-- C1 witness: the amended theorem evaluated on the default configuration
with attempt budget 3; the recorded sleeps are 250, 500, 1000 ms. -/
theorem backoff_doubling_uncapped_witness :
    (_execute demoExec allRetryEvents demoClient).sleeps =
      (List.range 3).map (backoffSeq 250 8000) ∧
    backoffSeq 250 8000 0 = 250 ∧
    (∀ k, backoffSeq 250 8000 (k + 1) =
      if backoffSeq 250 8000 k < 8000 then backoffSeq 250 8000 k * 2
      else backoffSeq 250 8000 k) ∧
    (∀ k j, 8000 ≤ backoffSeq 250 8000 k →
      backoffSeq 250 8000 (k + j) = backoffSeq 250 8000 k) ∧
    (∀ k, backoffSeq DEFAULT_MIN_BACKOFF DEFAULT_MAX_BACKOFF k ≤
      DEFAULT_MAX_BACKOFF) :=
  backoff_doubling_uncapped demoExec allRetryEvents 5
    (fun _ => ExecutionState.RETRY) demoClient rfl
    (fun _ _ => rfl) (fun _ _ => rfl)

/-- C2: counterexample to the claim as stated.  The client currently sits on
node 20, the middle of the three candidates `[10, 20, 30]`.  A transport
failure on the first attempt sets the node to
`node_account_ids[(attempt + 1) % 3] = node_account_ids[1] = 20`: the node
does not advance one position from the current index (which would give 30);
it is recomputed from the attempt number alone, here landing on the very
same node. -/
theorem transport_switch_ignores_current_node_cex :
    (_execute demoExec oneTransportEvents midClient).client.nodeAccountId
      = 20 ∧
    (20 : Nat) ≠ 30 ∧
    (_execute demoExec oneTransportEvents midClient).result =
      ExecResult.success 25 := by
  decide

/-- C2 (amended): a transport failure at attempt `i` sets the node to
candidate `(i + 1) mod candidate-count`, indexed by the attempt number and
independent of the current node.  Hence after `M` consecutive transport
failures starting at attempt 0 (`1 ≤ M < N`) the current node is candidate
`M mod candidate-count`; no backoff wait is invoked on those
transport-failure attempts (the sleeps list stays empty), and each failure
consumes one unit of the attempt budget (a FINISHED response at attempt `M`
gives `M + 1` dispatches in total). -/
theorem transport_failover_attempt_indexed {τ ρ σ ε : Type}
    (E : _Executable τ ρ σ ε) (events : Nat → AttemptEvent ρ ε)
    (req : τ) (resp : ρ) (M : Nat) (client : Client)
    (hreq : E.make_request = Except.ok req)
    (_hids : client.nodeAccountIds ≠ [])
    (hM : 1 ≤ M) (hMN : M < client.maxAttempts)
    (htrans : ∀ j, j < M →
      ∃ e, events j = AttemptEvent.transportFailure e)
    (hfin : events M = AttemptEvent.response resp)
    (hr : E.should_retry resp = ExecutionState.FINISHED) :
    (_execute E events client).client.nodeAccountId =
      client.nodeAccountIds.getD
        (M % client.nodeAccountIds.length) 0 ∧
    (_execute E events client).sleeps = [] ∧
    (_execute E events client).dispatches = M + 1 ∧
    (_execute E events client).result = ExecResult.success
      (E.map_response resp
        (client.nodeAccountIds.getD (M % client.nodeAccountIds.length) 0)
        req) := by
  have htrans0 : ∀ j, j < M →
      ∃ e, events (0 + j) = AttemptEvent.transportFailure e := by
    intro j hj; rw [Nat.zero_add]; exact htrans j hj
  obtain ⟨b2, e2, c2, heq, hids2, hmax2, _, hpos⟩ :=
    runFrom_transport_run E events req hreq M client.maxAttempts 0
      E.min_backoff none client [] 0 (by omega) htrans0
  have hnode : c2.nodeAccountId = client.nodeAccountIds.getD
      (M % client.nodeAccountIds.length) 0 := by
    have := hpos hM
    rwa [Nat.zero_add] at this
  obtain ⟨n, hn⟩ : ∃ n, client.maxAttempts - M = n + 1 :=
    ⟨client.maxAttempts - M - 1, by omega⟩
  have hmain : _execute E events client =
      { result := ExecResult.success
          (E.map_response resp c2.nodeAccountId req)
        sleeps := []
        dispatches := M + 1
        client := c2 } := by
    rw [_execute, heq, hn]
    simp only [Nat.zero_add]
    simp only [runFrom, hreq, hfin, hr]
  rw [hmain, hnode]
  exact ⟨rfl, rfl, rfl, rfl⟩

/-- C2 witness: two transport failures then success on a three-node client
starting at the first node: the final node is candidate `2 mod 3 = 2`
(identity 5), no sleeps, three dispatches. -/
theorem transport_failover_attempt_indexed_witness :
    (_execute demoExec twoTransportEvents demoClient).client.nodeAccountId
      = 5 ∧
    (_execute demoExec twoTransportEvents demoClient).sleeps = [] ∧
    (_execute demoExec twoTransportEvents demoClient).dispatches = 3 ∧
    (_execute demoExec twoTransportEvents demoClient).result =
      ExecResult.success 10 :=
  transport_failover_attempt_indexed demoExec twoTransportEvents 5
    ExecutionState.FINISHED 2 demoClient rfl (by decide) (by omega)
    (by decide)
    (by intro j hj; interval_cases j
        · exact ⟨41, rfl⟩
        · exact ⟨42, rfl⟩)
    rfl rfl

/-- C3: a response classified ERROR or EXPIRED is raised immediately.  If
attempts `0, ..., k-1` all continue the loop (transport failures or
RETRY-classified responses) and attempt `k` (within the budget) returns a
response classified ERROR or EXPIRED, the call raises the classifier's
mapped error for that response and has performed exactly `k + 1` dispatches
— one dispatch for the terminal segment and none after it, however much
budget remains. -/
theorem terminal_status_raised_immediately {τ ρ σ ε : Type}
    (E : _Executable τ ρ σ ε) (events : Nat → AttemptEvent ρ ε)
    (req : τ) (resp : ρ) (k : Nat) (client : Client)
    (hreq : E.make_request = Except.ok req)
    (hterm : E.should_retry resp = ExecutionState.ERROR ∨
      E.should_retry resp = ExecutionState.EXPIRED)
    (hk : k < client.maxAttempts)
    (hpre : ∀ j, j < k → continues E events j)
    (hev : events k = AttemptEvent.response resp) :
    (_execute E events client).result =
      ExecResult.statusError (E.map_status_error resp) ∧
    (_execute E events client).dispatches = k + 1 := by
  have hpre0 : ∀ j, j < k → continues E events (0 + j) := by
    intro j hj; rw [Nat.zero_add]; exact hpre j hj
  have hev0 : events (0 + k) = AttemptEvent.response resp := by
    rw [Nat.zero_add]; exact hev
  have h := runFrom_terminal_of_continues E events req hreq resp hterm k
    client.maxAttempts 0 E.min_backoff none client [] 0 hk hpre0 hev0
  rw [_execute]
  exact ⟨h.1, by rw [h.2]; omega⟩

/-- C3 witness: one RETRY-classified response then an ERROR-classified
response on a budget-3 client: the mapped error is raised after exactly two
dispatches. -/
theorem terminal_status_raised_immediately_witness :
    (_execute demoExec retryThenErrorEvents demoClient).result =
      ExecResult.statusError 2 ∧
    (_execute demoExec retryThenErrorEvents demoClient).dispatches = 2 :=
  terminal_status_raised_immediately demoExec retryThenErrorEvents 5
    ExecutionState.ERROR 1 demoClient rfl (Or.inl rfl) (by decide)
    (by intro j hj; interval_cases j
        exact Or.inr ⟨ExecutionState.RETRY, rfl, rfl⟩)
    rfl

/-- C4: when every one of the `N ≥ 1` budgeted attempts yields a
RETRY-classified response, the call raises `MaxAttemptsError` carrying the
client's current node identity (the node used by every attempt, including
the last) and the error mapped from the last response, after exactly `N`
dispatches and zero more. -/
theorem retry_exhaustion_raises_max_attempts {τ ρ σ ε : Type}
    (E : _Executable τ ρ σ ε) (events : Nat → AttemptEvent ρ ε)
    (req : τ) (r : Nat → ρ) (client : Client)
    (h1 : 1 ≤ client.maxAttempts)
    (hreq : E.make_request = Except.ok req)
    (hev : ∀ k, k < client.maxAttempts →
      events k = AttemptEvent.response (r k))
    (hr : ∀ k, k < client.maxAttempts →
      E.should_retry (r k) = ExecutionState.RETRY) :
    (_execute E events client).result =
      ExecResult.maxAttemptsError client.nodeAccountId
        (some (E.map_status_error (r (client.maxAttempts - 1)))) ∧
    (_execute E events client).dispatches = client.maxAttempts := by
  rw [execute_all_retry E events req r client hreq hev hr]
  refine ⟨?_, rfl⟩
  rw [if_neg (by omega)]

/-- C4 witness: three RETRY-classified responses on a budget-3 client: a
`MaxAttemptsError` carrying node 3 and the last mapped error, after three
dispatches. -/
theorem retry_exhaustion_raises_max_attempts_witness :
    (_execute demoExec allRetryEvents demoClient).result =
      ExecResult.maxAttemptsError 3 (some 1) ∧
    (_execute demoExec allRetryEvents demoClient).dispatches = 3 :=
  retry_exhaustion_raises_max_attempts demoExec allRetryEvents 5
    (fun _ => ExecutionState.RETRY) demoClient (by decide) rfl
    (fun _ _ => rfl) (fun _ _ => rfl)

/-- C5: whatever mix of RETRY-classified responses, transport failures and
terminal outcomes the environment produces, one `_execute` call performs at
most `max_attempts` network dispatches: every loop iteration performs at
most one dispatch, and RETRY-classified attempts and transport failures
each consume exactly one unit of the attempt budget. -/
theorem dispatches_le_attempt_budget :
    ∀ (τ ρ σ ε : Type) (E : _Executable τ ρ σ ε)
      (events : Nat → AttemptEvent ρ ε) (client : Client),
      (_execute E events client).dispatches ≤ client.maxAttempts := by
  intro τ ρ σ ε E events client
  have h := runFrom_dispatches_le E events client.maxAttempts 0
    E.min_backoff none client [] 0
  rw [_execute]
  omega

/-- C6: the RETRY path never advances the node identity.  Processing a
RETRY-classified response records the mapped error, appends one backoff
sleep, and recurses into the next attempt with the client state passed
through unchanged — the same node is used for the next dispatch, and
`_switch_node` is never invoked on this path. -/
theorem retry_does_not_switch_node {τ ρ σ ε : Type}
    (E : _Executable τ ρ σ ε) (events : Nat → AttemptEvent ρ ε)
    (req : τ) (resp : ρ) (remaining attempt backoff : Nat)
    (errP : Option ε) (client : Client) (sleeps : List Nat)
    (dispatches : Nat)
    (hreq : E.make_request = Except.ok req)
    (hev : events attempt = AttemptEvent.response resp)
    (hr : E.should_retry resp = ExecutionState.RETRY) :
    runFrom E events (remaining + 1) attempt backoff errP client
        sleeps dispatches =
      runFrom E events remaining (attempt + 1)
        (step_backoff E.max_backoff attempt backoff)
        (some (E.map_status_error resp)) client
        (sleeps ++ [_delay_for_attempt
          (step_backoff E.max_backoff attempt backoff)])
        (dispatches + 1) := by
  simp only [runFrom, hreq, hev, hr]

/-- C6 witness: the RETRY step on the budget-3 demo client keeps the client
(and hence its current node, 3) unchanged while recording one 250 ms
sleep. -/
theorem retry_does_not_switch_node_witness :
    runFrom demoExec allRetryEvents 2 0 250 none demoClient [] 0 =
      runFrom demoExec allRetryEvents 1 1 250 (some 1) demoClient [250] 1 :=
  retry_does_not_switch_node demoExec allRetryEvents 5
    ExecutionState.RETRY 1 0 250 none demoClient [] 0 rfl rfl rfl

/-- C7: absent required fields make the request builder raise a validation
error, and during `_execute` that error escapes before any dispatch.
`TopicUpdateTransaction.build_transaction_body` raises when `topic_id` is
`None`; `TokenUnfreezeTransaction.build_transaction_body` raises when
`token_id` or `account_id` is unset; and since `_make_request` is called
outside the loop's `try`/`except`, a failing build ends the call with zero
dispatches and zero sleeps — no retry swallows it. -/
theorem build_validation_error_not_swallowed :
    (∀ t : TopicUpdateTransaction, t.topic_id = none →
      t.build_transaction_body =
        Except.error ("Missing required fields: topic_id")) ∧
    (∀ u : TokenUnfreezeTransaction, u.token_id = none →
      u.build_transaction_body =
        Except.error ("Missing required TokenID.")) ∧
    (∀ u : TokenUnfreezeTransaction, u.token_id ≠ none →
      u.account_id = none →
      u.build_transaction_body =
        Except.error ("Missing required AccountID.")) ∧
    (∀ (τ ρ σ ε : Type) (E : _Executable τ ρ σ ε)
      (events : Nat → AttemptEvent ρ ε) (client : Client) (e : ε),
      E.make_request = Except.error e → 1 ≤ client.maxAttempts →
      _execute E events client =
        { result := ExecResult.buildError e, sleeps := [],
          dispatches := 0, client := client }) := by
  refine ⟨?_, ?_, ?_, ?_⟩
  · intro t ht
    simp [TopicUpdateTransaction.build_transaction_body, ht]
  · intro u hu
    simp [TokenUnfreezeTransaction.build_transaction_body, hu]
  · intro u hu ha
    rcases htok : u.token_id with _ | tok
    · exact absurd htok hu
    · simp [TokenUnfreezeTransaction.build_transaction_body, htok, ha]
  · intro τ ρ σ ε E events client e hreq hpos
    obtain ⟨n, hn⟩ : ∃ n, client.maxAttempts = n + 1 :=
      ⟨client.maxAttempts - 1, by omega⟩
    simp only [_execute, hn, runFrom, hreq]

/-- C7 witness: the no-argument `TopicUpdateTransaction()` has `topic_id =
None`; its build raises the missing-topic-id error, and running the engine
with it as request builder ends with that error, zero dispatches and zero
sleeps. -/
theorem build_validation_error_not_swallowed_witness :
    emptyTopicUpdate.build_transaction_body =
      Except.error ("Missing required fields: topic_id") ∧
    _execute emptyTopicUpdateExec allRetryEventsS demoClient =
      { result := ExecResult.buildError ("Missing required fields: topic_id"),
        sleeps := [], dispatches := 0, client := demoClient } :=
  ⟨build_validation_error_not_swallowed.1 emptyTopicUpdate rfl,
   build_validation_error_not_swallowed.2.2.2 TransactionBody
     ExecutionState Nat String emptyTopicUpdateExec allRetryEventsS
     demoClient ("Missing required fields: topic_id") rfl (by decide)⟩

/-- C8: `_execute_method` dispatches to whichever slot is populated.  If
the transaction slot is set it is called; if only the query slot is set it
is called; and the "No method to execute" failure occurs exactly when both
slots are `None` — so under the invariant that exactly one slot is
populated, the failure branch is unreachable.
`TopicUpdateTransaction._get_method` satisfies the invariant: its
transaction slot is the channel's `updateTopic` and its query slot is
`None`. -/
theorem execute_method_slot_dispatch {τ ρ : Type} (m : _Method τ ρ)
    (req : τ) :
    (∀ f, m.transaction = some f →
      _execute_method m req = Except.ok (f req)) ∧
    (∀ g, m.transaction = none → m.query = some g →
      _execute_method m req = Except.ok (g req)) ∧
    (_execute_method m req = Except.error ("No method to execute") ↔
      m.transaction = none ∧ m.query = none) ∧
    (∀ (t : TopicUpdateTransaction) (channel : _Channel τ ρ),
      (t._get_method channel).transaction =
        some channel.topic.updateTopic ∧
      (t._get_method channel).query = none) := by
  refine ⟨?_, ?_, ?_, ?_⟩
  · intro f hf
    simp [_execute_method, hf]
  · intro g ht hg
    simp [_execute_method, ht, hg]
  · rcases m with ⟨q, t⟩
    cases t <;> cases q <;> simp [_execute_method]
  · intro t channel
    exact ⟨rfl, rfl⟩

/-- C8 witness: a handle with only the transaction slot set dispatches to
that slot. -/
theorem execute_method_slot_dispatch_witness :
    _execute_method
      ({ query := none, transaction := some (fun n => n + 1) } :
        _Method Nat Nat) 3 = Except.ok 4 :=
  (execute_method_slot_dispatch
    ({ query := none, transaction := some (fun n => n + 1) } :
      _Method Nat Nat) 3).1 (fun n => n + 1) rfl

/-- C9: with an attempt budget of zero the loop body never runs:
`_execute` performs zero dispatches and zero sleeps and raises
`MaxAttemptsError` with the client's current node and no recorded last
error (`err_persistant` is still `None`). -/
theorem zero_attempt_budget_no_dispatch {τ ρ σ ε : Type}
    (E : _Executable τ ρ σ ε) (events : Nat → AttemptEvent ρ ε)
    (client : Client) (h : client.maxAttempts = 0) :
    _execute E events client =
      { result := ExecResult.maxAttemptsError client.nodeAccountId none,
        sleeps := [], dispatches := 0, client := client } := by
  simp only [_execute, h, runFrom]

/-- C9 witness: a zero-budget client yields the attempts-exhausted error
with no last error, no sleeps and no dispatches. -/
theorem zero_attempt_budget_no_dispatch_witness :
    _execute demoExec allRetryEvents zeroClient =
      { result := ExecResult.maxAttemptsError 3 none,
        sleeps := [], dispatches := 0, client := zeroClient } :=
  zero_attempt_budget_no_dispatch demoExec allRetryEvents zeroClient rfl

/-- C10: in an all-RETRY execution the engine sleeps after every attempt
including the final one — exactly `N` sleeps are recorded before the
attempts-exhausted error is raised (the last sleep precedes no further
dispatch). -/
theorem retry_sleeps_every_attempt {τ ρ σ ε : Type}
    (E : _Executable τ ρ σ ε) (events : Nat → AttemptEvent ρ ε)
    (req : τ) (r : Nat → ρ) (client : Client)
    (hreq : E.make_request = Except.ok req)
    (hev : ∀ k, k < client.maxAttempts →
      events k = AttemptEvent.response (r k))
    (hr : ∀ k, k < client.maxAttempts →
      E.should_retry (r k) = ExecutionState.RETRY) :
    (_execute E events client).sleeps.length = client.maxAttempts ∧
    ∃ lastErr, (_execute E events client).result =
      ExecResult.maxAttemptsError client.nodeAccountId lastErr := by
  rw [execute_all_retry E events req r client hreq hev hr]
  refine ⟨?_, ⟨_, rfl⟩⟩
  simp

/-- C10 witness: three RETRY-classified responses on a budget-3 client
record exactly three sleeps before the attempts-exhausted error. -/
theorem retry_sleeps_every_attempt_witness :
    (_execute demoExec allRetryEvents demoClient).sleeps.length = 3 ∧
    ∃ lastErr, (_execute demoExec allRetryEvents demoClient).result =
      ExecResult.maxAttemptsError 3 lastErr :=
  retry_sleeps_every_attempt demoExec allRetryEvents 5
    (fun _ => ExecutionState.RETRY) demoClient rfl
    (fun _ _ => rfl) (fun _ _ => rfl)
